import Mathlib

/-!
Verification of the `llm_image_tag` plugin
(`src/plugins/llm_image_tag/llm_image_tag.py`).

The Python source is shallowly embedded: pure string manipulation becomes
Lean functions over `List Char` / `String`; steps of the orchestrator that
can raise Python exceptions are modelled in the `Except String` monad, with
each `try/except` of the source made explicit; external collaborators
(GraphQL catalog, HTTP transport, file system) are modelled as inputs that
either return a value or raise, supplied through environment records.

Python string builtins used by the source (`str.strip`, `str.lower`,
`str.isalnum`, `json.loads`, `float()`, `int()`) are modelled below; where
the builtin's full Unicode behaviour is out of reach the model is a
documented restriction (see the doc comments) that is exact on ASCII and on
the Latin-1 letters used by the theorems.
-/

namespace LlmImageTag

/-- Python whitespace characters as recognised by `str.strip()` with no
argument (ASCII fragment: space, tab, newline, carriage return, vertical
tab, form feed; Unicode spaces are not modelled). -/
def pyWs (c : Char) : Bool :=
  c = ' ' || c = '\t' || c = '\n' || c = '\r' || c = '\x0b' || c = '\x0c'

/-- Drop the longest prefix whose characters satisfy `p`. -/
def dropLeading (p : Char → Bool) : List Char → List Char
  | [] => []
  | c :: r => if p c then dropLeading p r else c :: r

/-- Strip characters satisfying `p` from both ends of a character list,
modelling Python `str.strip(chars)`. -/
def stripBy (p : Char → Bool) (l : List Char) : List Char :=
  dropLeading p (dropLeading p l.reverse).reverse

/-- Model of Python `str.strip()` on the character list. -/
def stripChars (l : List Char) : List Char :=
  stripBy pyWs l

/-- Model of Python `str.lower()` applied to one character: ASCII `A`–`Z`
and the Latin-1 uppercase letters U+00C0–U+00DE (except `×`) are mapped to
their lowercase forms 32 code points higher; other characters are
unchanged (full Unicode case mapping is not modelled). -/
def pyLowerChar (c : Char) : Char :=
  if 'A' ≤ c && c ≤ 'Z' then Char.ofNat (c.toNat + 32)
  else if 0xC0 ≤ c.toNat && c.toNat ≤ 0xDE && c.toNat != 0xD7 then Char.ofNat (c.toNat + 32)
  else c

/-- Model of Python `str.isalnum()` for one character: ASCII letters and
digits, plus the Latin-1 letters U+00C0–U+00FF other than `×` and `÷`
(the fragment of Unicode alphanumerics exercised here; Python accepts all
Unicode letters/digits). -/
def pyIsAlnum (c : Char) : Bool :=
  c.isAlphanum || (0xC0 ≤ c.toNat && c.toNat ≤ 0xFF && c.toNat != 0xD7 && c.toNat != 0xF7)

/-- Split a character list on a separator character, modelling Python
`str.split(sep)` for a one-character `sep`: `"".split(sep) == [""]`,
adjacent separators produce empty pieces. -/
def splitOnChar (sep : Char) : List Char → List (List Char)
  | [] => [[]]
  | c :: r =>
    if c = sep then [] :: splitOnChar sep r
    else
      match splitOnChar sep r with
      | h :: t => (c :: h) :: t
      | [] => [[c]]

/-- Index of the first occurrence of `c`, modelling Python `str.find`
(`none` for `-1`). -/
def firstIdx (c : Char) : List Char → Option Nat
  | [] => none
  | x :: r =>
    if x = c then some 0
    else match firstIdx c r with
      | some i => some (i + 1)
      | none => none

/-- Index of the last occurrence of `c`, modelling Python `str.rfind`
(`none` for `-1`). -/
def lastIdx (c : Char) (l : List Char) : Option Nat :=
  match firstIdx c l.reverse with
  | some i => some (l.length - 1 - i)
  | none => none

/-- JSON whitespace, used by the `json.loads` model. -/
def jsonWs (c : Char) : Bool :=
  c = ' ' || c = '\t' || c = '\n' || c = '\r'

/-- Drop leading JSON whitespace. -/
def skipWs : List Char → List Char
  | [] => []
  | c :: r => if jsonWs c then skipWs r else c :: r

/-- Decode one JSON string escape character (`\" \\ \/ \n \t \r \b \f`);
`\uXXXX` escapes are not modelled and make the parse fail. -/
def escChar (c : Char) : Option Char :=
  if c = '"' then some '"'
  else if c = '\\' then some '\\'
  else if c = '/' then some '/'
  else if c = 'n' then some '\n'
  else if c = 't' then some '\t'
  else if c = 'r' then some '\r'
  else if c = 'b' then some '\x08'
  else if c = 'f' then some '\x0c'
  else none

/-- Parse the body of a JSON string after its opening quote; returns the
decoded characters and the remainder after the closing quote. -/
def jstrBody : List Char → Option (List Char × List Char)
  | [] => none
  | c :: r =>
    if c = '"' then some ([], r)
    else if c = '\\' then
      match r with
      | [] => none
      | e :: r2 =>
        match escChar e with
        | some ec =>
          match jstrBody r2 with
          | some (s, rest) => some (ec :: s, rest)
          | none => none
        | none => none
    else
      match jstrBody r with
      | some (s, rest) => some (c :: s, rest)
      | none => none

/-- Parse the elements of a JSON array of strings after the first `[`
(non-empty case): strings separated by commas, closed by `]`, with nothing
but whitespace allowed after the final `]`. -/
def jelems (acc : List String) : Nat → List Char → Option (List String)
  | 0, _ => none
  | fuel + 1, l =>
    match skipWs l with
    | '"' :: r =>
      match jstrBody r with
      | some (sChars, rest) =>
        match skipWs rest with
        | ',' :: r2 => jelems (acc ++ [String.mk sChars]) fuel r2
        | ']' :: r2 => if skipWs r2 = [] then some (acc ++ [String.mk sChars]) else none
        | _ => none
      | none => none
    | _ => none

/-- Model of `json.loads` restricted to the fragment the source feeds it
in the verified scenarios: a complete JSON array of strings (no trailing
text). On every other document it reports failure, as CPython does on the
concrete inputs appearing in the theorems below; arrays holding non-string
elements, nested values, or `\u` escapes are outside the model. -/
def jsonLoadsStrArray (l : List Char) : Option (List String) :=
  match skipWs l with
  | '[' :: r =>
    match skipWs r with
    | ']' :: r2 => if skipWs r2 = [] then some [] else none
    | r2 => jelems [] (r2.length + 1) r2
  | _ => none

/-- The character test of the cleaning loop of `_parse_tags`:
`ch.isalnum() or ch in "- _"`. -/
def keepChar (c : Char) : Bool :=
  pyIsAlnum c || c = '-' || c = ' ' || c = '_'

/-- Cleaning of one tag candidate, from the loop body of `_parse_tags`:
`t.strip().strip("#").strip().lower()` followed by keeping only characters
passing `keepChar`. -/
def cleanTag (t : String) : String :=
  let l := stripChars t.data
  let l := stripBy (fun c => c = '#') l
  let l := stripChars l
  let l := l.map pyLowerChar
  String.mk (l.filter keepChar)

/-- The structured-extraction attempt of `_parse_tags`: if a `[` precedes
a `]`, the bracketed slice is parsed as JSON, a parse failure (or a
non-list result) leaving the candidate list empty. -/
def jsonExtract (l : List Char) : List String :=
  match firstIdx '[' l, lastIdx ']' l with
  | some st, some en =>
    if st < en then
      match jsonLoadsStrArray ((l.drop st).take (en + 1 - st)) with
      | some arr => arr
      | none => []
    else []
  | _, _ => []

/-- Raw candidate extraction of `_parse_tags` before cleaning: the text is
stripped; the structured JSON attempt runs first; when it produced
nothing, the text is split on commas when it contains one, else on
newlines, stripping each piece. -/
def tagCandidates (text : String) : List String :=
  if (jsonExtract (stripChars text.data)).isEmpty then
    (splitOnChar (if (stripChars text.data).contains ',' then ',' else '\n')
      (stripChars text.data)).map (fun t => String.mk (stripChars t))
  else jsonExtract (stripChars text.data)

/-- The length acceptance test of `_parse_tags`: `1 <= len(t) <= 50`. -/
def keepLen (t : String) : Bool :=
  decide (1 ≤ t.length) && decide (t.length ≤ 50)

/-- The `cleaned` list of `_parse_tags`: every candidate cleaned, keeping
those whose cleaned length is between 1 and 50. -/
def cleanedCandidates (text : String) : List String :=
  (tagCandidates text).map cleanTag |>.filter keepLen

/-- The deduplication loop of `_parse_tags`: keep a tag when it is
non-empty and not yet seen, preserving first-seen order. -/
def dedupFirst (seen : List String) : List String → List String
  | [] => []
  | t :: rest =>
    if t ≠ "" ∧ t ∉ seen then t :: dedupFirst (t :: seen) rest
    else dedupFirst seen rest

/-- Model of `_parse_tags` from the source: candidate extraction, cleaning, then
order-preserving deduplication. -/
def _parse_tags (text : String) : List String :=
  dedupFirst [] (cleanedCandidates text)

/-- Case-insensitive prefix test over characters (ASCII case folding; the
patterns searched with it are ASCII). -/
def isPrefixCaseless : List Char → List Char → Bool
  | [], _ => true
  | _ :: _, [] => false
  | p :: ps, c :: cs => (p.toLower = c.toLower) && isPrefixCaseless ps cs

/-- Index of the first case-insensitive occurrence of `pat` in `l`. -/
def findCaseless (pat : List Char) : List Char → Option Nat
  | [] => if pat.isEmpty then some 0 else none
  | c :: r =>
    if isPrefixCaseless pat (c :: r) then some 0
    else match findCaseless pat r with
      | some i => some (i + 1)
      | none => none

/-- One pass of `re.sub(r"<think>.*?</think>", "", text, DOTALL|IGNORECASE)`:
the leftmost `<think>` is matched non-greedily with the nearest following
`</think>`; scanning resumes after the removed match. If the first (hence
every) `<think>` has no `</think>` after it, nothing matches. -/
def stripThinkAux : Nat → List Char → List Char
  | 0, l => l
  | fuel + 1, l =>
    match findCaseless "<think>".data l with
    | none => l
    | some i =>
      let pre := l.take i
      let rest := l.drop (i + 7)
      match findCaseless "</think>".data rest with
      | none => l
      | some j => pre ++ stripThinkAux fuel (rest.drop (j + 8))

/-- Model of `_strip_think_blocks` from the source. -/
def _strip_think_blocks (text : String) : String :=
  String.mk (stripThinkAux text.data.length text.data)

/-- The normalization applied to the raw LLM reply in `tags_from_image`:
think-block removal followed by `_parse_tags`. -/
def normalize (text : String) : List String :=
  _parse_tags (_strip_think_blocks text)

/-- Spec-side definition, for comparison only: the character class of the
spec's tag regex `^[a-z0-9 _-]{1,50}$` (ASCII lowercase letters, digits,
space, underscore, hyphen). -/
def asciiTagChar (c : Char) : Bool :=
  ('a' ≤ c && c ≤ 'z') || ('0' ≤ c && c ≤ '9') || c = ' ' || c = '_' || c = '-'

/-- Characters kept unchanged by the request-id sanitizer: the class
`[A-Za-z0-9_-]` of the regex in `_write_result`. -/
def isSafeChar (c : Char) : Bool :=
  ('A' ≤ c && c ≤ 'Z') || ('a' ≤ c && c ≤ 'z') || ('0' ≤ c && c ≤ '9') || c = '_' || c = '-'

/-- Model of `re.sub(r"[^A-Za-z0-9_-]", "_", s)` from `_write_result`: every
character outside the safe class becomes `_`. -/
def sanitizeRequestId (s : String) : String :=
  String.mk (s.data.map (fun c => if isSafeChar c then c else '_'))

/-- The persisted result record, the JSON payload written by
`_write_result`. -/
structure ResultRecord where
  image_id : Int
  tags : List String
  error : Option String
  request_id : Option String
  deriving Repr, DecidableEq

/-- Computation of `safe_request_id` in `_write_result`: `none` unless the request id is a
string with non-blank content, else the sanitized stripped id. (A non-string
`request_id` fails the `isinstance` test and also yields `none`; ids are
modelled as `Option String`.) -/
def safeRequestIdOf (rid : Option String) : Option String :=
  match rid with
  | none => none
  | some r =>
    if (stripChars r.data).isEmpty then none
    else some (sanitizeRequestId (String.mk (stripChars r.data)))

/-- Model of `_write_result` from the source, as the pure content it persists: the
record serialized to `<imageId>[_<safeRequestId>].json` and that filename.
The temp-file/rename mechanics are file-system effects outside the model;
the filename suffix reproduces the `if safe_request_id` truthiness test. -/
def _write_result (image_id : Int) (tags : List String) (error : Option String)
    (request_id : Option String) : ResultRecord × String :=
  let safe := safeRequestIdOf request_id
  let suffix :=
    match safe with
    | some s => if s.data.isEmpty then "" else "_" ++ s
    | none => ""
  (⟨image_id, tags, error, safe⟩, toString image_id ++ suffix ++ ".json")

/-- Model of `str.rstrip("/")`: remove all trailing slashes. -/
def rstripSlash (l : List Char) : List Char :=
  (dropLeading (fun c => c = '/') l.reverse).reverse

/-- One source step of `_resolve_base_url`, after its lookup:
`if isinstance(x, str) and x.strip(): return x.strip().rstrip("/")`.
`none` in means the lookup produced nothing (or a non-string); `none` out
means resolution falls through to the next source. -/
def acceptUrl (v : Option String) : Option String :=
  match v with
  | none => none
  | some s =>
    if (stripChars s.data).isEmpty then none
    else some (String.mk (rstripSlash (stripChars s.data)))

/-- The six ordered sources consulted by `_resolve_base_url`, each as the
value its lookup yields when it yields a string (`none` covers: key
absent, non-string value, helper exception, failed GraphQL fetch — all of
which the source swallows and treats as "no value"). `rawUrl`/`altUrl` are
the `settings` / `pluginSettings` payload lookups of step 3, after the
dict-or-key/value-list extraction. -/
structure BaseUrlSources where
  argUrl : Option String
  uiUrl : Option String
  rawUrl : Option String
  altUrl : Option String
  fetched : Option String
  envUrl : Option String
  deriving Repr, DecidableEq

def DEFAULT_BASE_URL : String := "http://localhost:11434/v1"

/-- Model of `_resolve_base_url` from the source: first accepted source wins; in
step 3 the `pluginSettings` lookup is consulted only when the `settings`
lookup was falsy (`None` or the empty string — a whitespace-only string is
truthy and suppresses it); the built-in default closes the chain. -/
def _resolve_base_url (src : BaseUrlSources) : String :=
  match acceptUrl src.argUrl with
  | some u => u
  | none =>
  match acceptUrl src.uiUrl with
  | some u => u
  | none =>
  let raw : Option String :=
    match src.rawUrl with
    | none => src.altUrl
    | some s => if s.isEmpty then src.altUrl else some s
  match acceptUrl raw with
  | some u => u
  | none =>
  match acceptUrl src.fetched with
  | some u => u
  | none =>
  match acceptUrl src.envUrl with
  | some u => u
  | none => String.mk (rstripSlash DEFAULT_BASE_URL.data)

/-- Model of `_env_or_setting` from the source, for a string-valued lookup: the
setting value if present, else the environment value; if the chosen value
is absent or whitespace-only the built-in default is returned — the
environment variable is NOT consulted when the setting is present but
blank. `none` as result means the (numeric or string) built-in default is
used; a `some` result is returned exactly as found, untrimmed. -/
def _env_or_setting (setting env : Option String) : Option String :=
  let v : Option String :=
    match setting with
    | some s => some s
    | none => env
  match v with
  | none => none
  | some s => if (stripChars s.data).isEmpty then none else some s

/-- Model of `MODEL = str(_env_or_setting("llmModel", "LLM_MODEL", DEFAULT_MODEL))`:
the resolved model string (default when the sources resolve to nothing).
`str()` of the resolved string is the identity — no trimming occurs. -/
def resolveModel (setting env : Option String) : String :=
  match _env_or_setting setting env with
  | some s => s
  | none => "gemma3:4b-it-q8_0"

/-- Consume leading decimal digits, returning the rest and how many were
consumed. -/
def takeDigits : List Char → List Char × Nat
  | [] => ([], 0)
  | c :: r =>
    if c.isDigit then
      let (r2, n) := takeDigits r
      (r2, n + 1)
    else (c :: r, 0)

/-- Exponent tail of a Python float literal after `e`/`E`: optional sign
then at least one digit, ending the string. -/
def expTail (l : List Char) : Bool :=
  match l with
  | [] => false
  | c :: r =>
    let r2 := if c = '+' || c = '-' then r else c :: r
    let (r3, n) := takeDigits r2
    decide (1 ≤ n) && r3.isEmpty

/-- Optional exponent closing a float literal. -/
def expOk (l : List Char) : Bool :=
  match l with
  | [] => true
  | c :: r => (c = 'e' || c = 'E') && expTail r

/-- Mantissa of a Python float literal: digits with an optional point,
at least one digit overall, then an optional exponent. -/
def floatBody (l : List Char) : Bool :=
  let (l1, n1) := takeDigits l
  match l1 with
  | '.' :: r =>
    let (l2, n2) := takeDigits r
    decide (1 ≤ n1 + n2) && expOk l2
  | _ => decide (1 ≤ n1) && expOk l1

/-- Model of whether CPython `float(s)` succeeds on a string: surrounding
whitespace stripped, optional sign, then a decimal literal or
`inf`/`infinity`/`nan` case-insensitively. (Digit-group underscores,
accepted by CPython 3.6+, are not modelled.) -/
def pyFloatAccepts (s : String) : Bool :=
  let l := stripChars s.data
  let l :=
    match l with
    | c :: r => if c = '+' || c = '-' then r else c :: r
    | [] => []
  let low := l.map Char.toLower
  low = "inf".data || low = "infinity".data || low = "nan".data || floatBody l

/-- All-digit run to a number, failing on the empty run. -/
def digitsToNat : List Char → Option Nat
  | [] => none
  | [c] => if c.isDigit then some (c.toNat - '0'.toNat) else none
  | c :: r =>
    if c.isDigit then
      match digitsToNat r with
      | some n => some ((c.toNat - '0'.toNat) * 10 ^ r.length + n)
      | none => none
    else none

/-- Model of CPython `int(s)` on a string: surrounding whitespace
stripped, optional sign, one or more digits (no point, no exponent;
digit-group underscores not modelled). `none` means `int()` raises
`ValueError`. -/
def pyParseInt (s : String) : Option Int :=
  let l := stripChars s.data
  match l with
  | '-' :: r => (digitsToNat r).map (fun n => -(n : Int))
  | '+' :: r => (digitsToNat r).map (fun n => (n : Int))
  | _ => (digitsToNat l).map (fun n => (n : Int))

/-- Monadic form of `_parse_tags` in which the one step that can raise a
Python exception — `json.loads` — is carried in the `Except` channel and
the `try/except Exception: pass` of the source is made explicit. Every
other statement of `_parse_tags` is exception-free string manipulation. -/
def _parse_tagsE (text : String) : Except String (List String) := do
  let tags : List String ←
    match firstIdx '[' (stripChars text.data), lastIdx ']' (stripChars text.data) with
    | some st, some en =>
      if st < en then
        match jsonLoadsStrArray (((stripChars text.data).drop st).take (en + 1 - st)) with
        | some arr => pure arr
        | none =>
          -- `json.loads` raised `JSONDecodeError`; the handler does `pass`
          pure []
      else pure []
    | _, _ => pure []
  let tags :=
    if tags.isEmpty then
      let sep : Char := if (stripChars text.data).contains ',' then ',' else '\n'
      (splitOnChar sep (stripChars text.data)).map (fun t => String.mk (stripChars t))
    else tags
  let cleaned := tags.map cleanTag |>.filter keepLen
  pure (dedupFirst [] cleaned)

/-- Decidable equality for the `Except` channel, needed to evaluate the
orchestrator models on concrete environments. -/
instance {ε α : Type} [DecidableEq ε] [DecidableEq α] : DecidableEq (Except ε α) := fun a b =>
  match a, b with
  | .error e, .error f =>
    if h : e = f then isTrue (by rw [h]) else isFalse (by intro k; injection k; exact h ‹_›)
  | .ok x, .ok y =>
    if h : x = y then isTrue (by rw [h]) else isFalse (by intro k; injection k; exact h ‹_›)
  | .error _, .ok _ => isFalse (by intro k; exact Except.noConfusion k)
  | .ok _, .error _ => isFalse (by intro k; exact Except.noConfusion k)

/-- Environment of one `tag_image_task` invocation: the task arguments and
the outcome of each external interaction. An `Except.error` value models
that step raising a Python exception with that message; `fetchPath = none`
models `_fetch_image_path` returning `None` (its own `try/except` already
absorbs GraphQL failures). `imageId` is the raw `args.image_id` value as a
string (`int()` is applied to it by the task). -/
structure TaskEnv where
  imageId : Option String
  requestId : Option String
  fetchPath : Option String
  existingTags : Except String (List String)
  readImage : Except String String
  llmReply : Except String String
  writeFails : Bool
  deriving Repr, DecidableEq

/-- Model of `tags_from_image` from the source: the existing-tag fetch is wrapped in
its own `try/except` (falling back to `[]`, which only changes the request
payload); any exception from reading the image, base64 encoding, or the
LLM call is caught by the outer `except`, logged, and turns into an empty
tag list; otherwise the reply is think-stripped and parsed. -/
def tags_from_image (env : TaskEnv) : List String :=
  let _existing : List String :=
    match env.existingTags with
    | .ok ts => ts
    | .error _ => []
  match env.readImage with
  | .error _ => []
  | .ok _ =>
    match env.llmReply with
    | .error _ => []
    | .ok content => _parse_tags (_strip_think_blocks content)

/-- Model of `tag_image` from the source: `None` when no image path is found
(`if not path:` — a `None` or empty-string path), otherwise the (possibly
empty) list from `tags_from_image`. -/
def tag_image (env : TaskEnv) : Option (List String) :=
  match env.fetchPath with
  | none => none
  | some p => if p.data.isEmpty then none else some (tags_from_image env)

/-- Model of `_write_result` with its possible file-system failure made explicit:
when the environment says writing fails, the call raises. -/
def _write_resultE (writeFails : Bool) (image_id : Int) (tags : List String)
    (error : Option String) (request_id : Option String) :
    Except String (ResultRecord × String) :=
  if writeFails then .error "write failed"
  else .ok (_write_result image_id tags error request_id)

/-- The body of the outer `try` of `tag_image_task`: return without
writing when no `image_id` was supplied; apply `int()` to it (a parse
failure raises); run `tag_image`; persist either the error record for a
missing path or the obtained tags with no error. -/
def taskAttempt (env : TaskEnv) : Except String (Option (ResultRecord × String)) :=
  match env.imageId with
  | none => .ok none
  | some raw =>
    match pyParseInt raw with
    | none => .error ("invalid literal for int: " ++ raw)
    | some iid =>
      match tag_image env with
      | none =>
        (_write_resultE env.writeFails iid [] (some "No image path found.") env.requestId).map some
      | some tags =>
        (_write_resultE env.writeFails iid tags none env.requestId).map some

/-- Model of `tag_image_task` from the source, in the `Except` channel: the body
runs under the outer `try`; on any exception the handler re-reads the
arguments and attempts to persist an error record, its own failure being
swallowed by the inner bare `except: pass`. The result is the write event
that reached the results directory (`none`: nothing was persisted). -/
def tag_image_taskE (env : TaskEnv) : Except String (Option (ResultRecord × String)) :=
  match taskAttempt env with
  | .ok r => .ok r
  | .error e =>
    match env.imageId with
    | none => .ok none
    | some raw =>
      match pyParseInt raw with
      | none => .ok none
      | some iid =>
        match _write_resultE env.writeFails iid [] (some e) env.requestId with
        | .ok w => .ok (some w)
        | .error _ => .ok none

/-- Environment of one whole process invocation: the base-URL sources, the
(setting, environment-variable) pairs feeding the scalar fields, whether
the dispatch condition selects `tag_image_task`, and that task's
environment. -/
structure ScriptEnv where
  baseSrc : BaseUrlSources
  modelSetting : Option String
  modelEnv : Option String
  tempSetting : Option String
  tempEnv : Option String
  maxTokensSetting : Option String
  maxTokensEnv : Option String
  timeoutSetting : Option String
  timeoutEnv : Option String
  dispatchTask : Bool
  task : TaskEnv
  deriving Repr, DecidableEq

/-- Whether the module-level numeric conversions `TEMP = float(...)`,
`MAX_TOKENS = int(...)`, `TIMEOUT = float(...)` all succeed (when a source
resolves to nothing, the numeric built-in default is converted, which
always succeeds). -/
def scalarsParse (env : ScriptEnv) : Bool :=
  (match _env_or_setting env.tempSetting env.tempEnv with
   | some s => pyFloatAccepts s
   | none => true) &&
  (match _env_or_setting env.maxTokensSetting env.maxTokensEnv with
   | some s => (pyParseInt s).isSome
   | none => true) &&
  (match _env_or_setting env.timeoutSetting env.timeoutEnv with
   | some s => pyFloatAccepts s
   | none => true)

/-- The write event reaching the results directory during the entry
point: the dispatched task's event, run under the entry-point `try` whose
`except` absorbs any escaping exception (nothing when the invocation
named no task). -/
def mainEvent (env : ScriptEnv) : Option (ResultRecord × String) :=
  if env.dispatchTask then
    match tag_image_taskE env.task with
    | .ok r => r
    | .error _ => none
  else none

/-- The whole script run: the module top level resolves `BASE_URL` and
`MODEL` (which cannot raise) and then converts `TEMP`, `MAX_TOKENS` and
`TIMEOUT`, OUTSIDE any `try` — a conversion failure propagates, aborting
the process before anything is printed (`Except.error`). Otherwise the
entry-point `try` dispatches the task (its exceptions are caught and
logged) and the final `try: print("null")` emits the only line on
standard output. The result is (persisted write event, stdout lines). -/
def mainScript (env : ScriptEnv) : Except String (Option (ResultRecord × String) × List String) :=
  let _baseUrl := _resolve_base_url env.baseSrc
  let _model := resolveModel env.modelSetting env.modelEnv
  if scalarsParse env then .ok (mainEvent env, ["null"])
  else .error "ValueError during module-level configuration conversion"

/-- Every element produced by the deduplication loop came from the input,
was not yet seen, and is non-empty. -/
theorem dedupFirst_mem_dest : ∀ (l seen : List String) (a : String),
    a ∈ dedupFirst seen l → a ∈ l ∧ a ∉ seen ∧ a ≠ ""
  | [], seen, a => by simp [dedupFirst]
  | t :: rest, seen, a => by
    simp only [dedupFirst]
    split
    · rename_i h
      intro hmem
      rcases List.mem_cons.mp hmem with rfl | hmem
      · exact ⟨List.mem_cons_self _ _, h.2, h.1⟩
      · obtain ⟨h1, h2, h3⟩ := dedupFirst_mem_dest rest (t :: seen) a hmem
        exact ⟨List.mem_cons_of_mem _ h1, fun hs => h2 (List.mem_cons_of_mem _ hs), h3⟩
    · intro hmem
      obtain ⟨h1, h2, h3⟩ := dedupFirst_mem_dest rest seen a hmem
      exact ⟨List.mem_cons_of_mem _ h1, h2, h3⟩

/-- Every non-empty unseen element of the input survives the
deduplication loop. -/
theorem dedupFirst_mem_of : ∀ (l seen : List String) (a : String),
    a ∈ l → a ≠ "" → a ∉ seen → a ∈ dedupFirst seen l
  | [], _, a => by simp
  | t :: rest, seen, a => by
    intro hmem hne hns
    simp only [dedupFirst]
    split
    · rcases List.mem_cons.mp hmem with rfl | hmem
      · exact List.mem_cons_self _ _
      · by_cases hat : a = t
        · exact hat ▸ List.mem_cons_self _ _
        · refine List.mem_cons_of_mem _ (dedupFirst_mem_of rest (t :: seen) a hmem hne ?_)
          intro hs
          rcases List.mem_cons.mp hs with h' | h'
          · exact hat h'
          · exact hns h'
    · rename_i h
      rcases List.mem_cons.mp hmem with rfl | hmem
      · exact absurd ⟨hne, hns⟩ h
      · exact dedupFirst_mem_of rest seen a hmem hne hns

/-- The deduplication loop never emits a duplicate. -/
theorem dedupFirst_nodup : ∀ (l seen : List String), (dedupFirst seen l).Nodup
  | [], _ => List.nodup_nil
  | t :: rest, seen => by
    simp only [dedupFirst]
    split
    · refine List.nodup_cons.mpr ⟨?_, dedupFirst_nodup rest (t :: seen)⟩
      intro hmem
      exact (dedupFirst_mem_dest rest (t :: seen) t hmem).2.1 (List.mem_cons_self _ _)
    · exact dedupFirst_nodup rest seen

/-- The deduplication loop preserves the order of the input: its output is
a sublist of the input. -/
theorem dedupFirst_sublist : ∀ (l seen : List String), (dedupFirst seen l).Sublist l
  | [], _ => List.Sublist.refl _
  | t :: rest, seen => by
    simp only [dedupFirst]
    split
    · exact List.Sublist.cons₂ t (dedupFirst_sublist rest (t :: seen))
    · exact List.Sublist.cons t (dedupFirst_sublist rest seen)

/-- Every cleaned candidate kept by `_parse_tags` has length 1–50 and only
characters accepted by the cleaning filter. -/
theorem cleanedCandidates_spec {s t : String} (h : t ∈ cleanedCandidates s) :
    1 ≤ t.length ∧ t.length ≤ 50 ∧ ∀ c ∈ t.data, keepChar c = true := by
  unfold cleanedCandidates at h
  obtain ⟨hmem, hlen⟩ := List.mem_filter.mp h
  rw [keepLen, Bool.and_eq_true, decide_eq_true_eq, decide_eq_true_eq] at hlen
  obtain ⟨x, _, rfl⟩ := List.mem_map.mp hmem
  refine ⟨hlen.1, hlen.2, ?_⟩
  intro c hc
  exact (List.mem_filter.mp hc).2

/-- A cleaned candidate is never the empty string. -/
theorem cleanedCandidates_ne_empty {s t : String} (h : t ∈ cleanedCandidates s) : t ≠ "" := by
  intro hrfl
  have := (cleanedCandidates_spec h).1
  rw [hrfl] at this
  exact absurd this (by decide)

/-- C2, counterexample: normalizing the spec's comma-list example does NOT
yield `["beach", "sunset", "ocean"]` — the first comma piece
`"Sure! Here are some tags: beach"` cleans to a 29-character tag that
passes the length filter and is kept. -/
theorem c2_counterexample :
    normalize "Sure! Here are some tags: beach, sunset, #ocean " ≠ ["beach", "sunset", "ocean"] := by
  decide

/-- C2, amended: normalizing `"Sure! Here are some tags: beach, sunset, #ocean "`
(no brackets, so fallback comma splitting applies) yields exactly
`["sure here are some tags beach", "sunset", "ocean"]`: the prose prefix
survives cleaning as a tag; the `#` of `#ocean` is stripped. -/
theorem c2_amended :
    normalize "Sure! Here are some tags: beach, sunset, #ocean " =
      ["sure here are some tags beach", "sunset", "ocean"] := by
  decide

/-- C3, counterexample: sanitizing the request id `"../../x"` does not
give `".._.._x"` — `.` is outside `[A-Za-z0-9_-]`, so it too is replaced
by `_`. -/
theorem c3_counterexample : sanitizeRequestId "../../x" ≠ ".._.._x" := by
  decide

/-- C3, amended: sanitizing `"../../x"` produces `"______x"` (every dot
and slash replaced), which contains no path-separator characters; in
general every character outside `[A-Za-z0-9_-]` is replaced with `_`, so
every character of the output is in that class and in particular is never
`/` or `\`. -/
theorem c3_amended :
    sanitizeRequestId "../../x" = "______x" ∧
    isSafeChar '/' = false ∧ isSafeChar '\\' = false ∧
    ∀ (s : String), ∀ c ∈ (sanitizeRequestId s).data, isSafeChar c = true := by
  refine ⟨by decide, by decide, by decide, ?_⟩
  intro s c hc
  obtain ⟨d, _, rfl⟩ := List.mem_map.mp hc
  by_cases h : isSafeChar d = true
  · rw [if_pos h]
    exact h
  · rw [if_neg h]
    decide

/-- C3, witness for the amended sanitizer property at a concrete input:
the character `sanitizeRequestId "a/b"` puts where the slash was (an
underscore, by `c3_amended` applied at `"a/b"` and `'_'`) is in the safe
class. -/
theorem c3_amended_witness : isSafeChar '_' = true :=
  c3_amended.2.2.2 "a/b" '_' (by decide)

/-- C6, counterexample: `_parse_tags "café"` yields the tag `"café"`,
whose character `é` is kept by Python's Unicode-aware `isalnum` but does
not match the claimed ASCII class `[a-z0-9 _-]`. -/
theorem c6_counterexample :
    _parse_tags "café" = ["café"] ∧ 'é' ∈ "café".data ∧ asciiTagChar 'é' = false := by
  refine ⟨by decide, by decide, by decide⟩

/-- C6, amended: every tag returned by normalization has length 1 to 50
and only characters that are alphanumeric (in Python's Unicode sense, as
modelled by `pyIsAlnum`), space, underscore, or hyphen; since `isalnum`
accepts non-ASCII letters, the ASCII-only regex of the claim does not
hold in general. -/
theorem c6_amended : ∀ (s t : String), t ∈ _parse_tags s →
    1 ≤ t.length ∧ t.length ≤ 50 ∧ ∀ c ∈ t.data, keepChar c = true := by
  intro s t h
  have h' : t ∈ cleanedCandidates s :=
    (dedupFirst_mem_dest (cleanedCandidates s) [] t h).1
  exact cleanedCandidates_spec h'

/-- C6, witness: the amended invariant evaluated on the concrete input
`"cat"`, whose only tag is `"cat"`, with the character clause applied at
`'c'`. -/
theorem c6_amended_witness :
    (1 ≤ ("cat" : String).length ∧ ("cat" : String).length ≤ 50) ∧ keepChar 'c' = true :=
  ⟨⟨(c6_amended "cat" "cat" (by decide)).1, (c6_amended "cat" "cat" (by decide)).2.1⟩,
   (c6_amended "cat" "cat" (by decide)).2.2 'c' (by decide)⟩

/-- C8: normalizing `'["cat", "outdoor", "CAT"]'` yields exactly
`["cat", "outdoor"]`; in general the output of `_parse_tags` is
duplicate-free (duplicates detected by exact string equality after
cleaning), is a sublist of the cleaned candidates (so first-seen order is
preserved), and keeps exactly the cleaned candidates (the first occurrence
of each wins). -/
theorem c8_dedup_first_wins :
    normalize "[\"cat\", \"outdoor\", \"CAT\"]" = ["cat", "outdoor"] ∧
    ∀ s : String, (_parse_tags s).Nodup ∧ (_parse_tags s).Sublist (cleanedCandidates s) ∧
      ∀ a : String, a ∈ _parse_tags s ↔ a ∈ cleanedCandidates s := by
  refine ⟨by decide, fun s => ⟨dedupFirst_nodup _ [], dedupFirst_sublist _ [], fun a => ?_⟩⟩
  constructor
  · intro h
    exact (dedupFirst_mem_dest (cleanedCandidates s) [] a h).1
  · intro h
    exact dedupFirst_mem_of (cleanedCandidates s) [] a h (cleanedCandidates_ne_empty h)
      (List.not_mem_nil a)

/-- C9: normalization removes `<think>...</think>` blocks (matching
case-insensitively and across newlines) before tag extraction:
`normalize` is exactly `_parse_tags` after `_strip_think_blocks`, the
spec's example strips to `'["indoor"]'` and yields `["indoor"]`, and an
upper-case multi-line block is removed the same way. -/
theorem c9_think_blocks :
    _strip_think_blocks "<think>hmm</think>[\"indoor\"]" = "[\"indoor\"]" ∧
    normalize "<think>hmm</think>[\"indoor\"]" = ["indoor"] ∧
    normalize "<THINK>a\nb</THINK>[\"x\"]" = ["x"] ∧
    ∀ s : String, normalize s = _parse_tags (_strip_think_blocks s) := by
  exact ⟨by decide, by decide, by decide, fun s => rfl⟩

/-- C7: normalization is total and never raises — the monadic embedding
`_parse_tagsE`, in which the `json.loads` exception and its handler are
explicit in the `Except` channel, returns `.ok` of the pure `_parse_tags`
result on every input; in particular the empty string yields `[]` and a
bracketed substring that is not valid JSON degrades to the lexical
fallback instead of failing. -/
theorem c7_normalize_total :
    (∀ s : String, _parse_tagsE s = .ok (_parse_tags s)) ∧
    _parse_tags "" = [] ∧ normalize "" = [] ∧ _parse_tags "[not json]" = ["not json"] := by
  refine ⟨?_, by decide, by decide, by decide⟩
  intro s
  unfold _parse_tagsE _parse_tags cleanedCandidates tagCandidates jsonExtract
  cases h1 : firstIdx '[' (stripChars s.data) <;>
    cases h2 : lastIdx ']' (stripChars s.data)
  · rfl
  · rfl
  · rfl
  · rename_i st en
    by_cases h3 : st < en
    · simp only [if_pos h3]
      cases jsonLoadsStrArray ((stripChars s.data).drop st |>.take (en + 1 - st)) <;> rfl
    · simp only [if_neg h3]
      rfl

/-- C4, counterexample: in `_env_or_setting` a whitespace-only setting
does NOT fall through to the environment variable — the built-in default
is returned even though the environment variable carries a value (so
`resolveModel` yields the default, not `"modelX"`); and a resolved
non-blank value is returned untrimmed (`" gpt "`). -/
theorem c4_counterexample :
    _env_or_setting (some " ") (some "modelX") = none ∧
    resolveModel (some " ") (some "modelX") = "gemma3:4b-it-q8_0" ∧
    resolveModel none (some "modelX") = "modelX" ∧
    resolveModel (some " gpt ") none = " gpt " := by
  refine ⟨by decide, by decide, by decide, by decide⟩

/-- C4, amended: for the base URL, a whitespace-only string at any of the
six sources behaves exactly like an absent one (for the step-3 payload
source, with both of its lookups considered), so resolution falls through
to the next source and resolved values are trimmed and slash-stripped; in
the 2-source scalar resolver `_env_or_setting`, however, a whitespace-only
value (from either source) yields the built-in default directly — a blank
setting bypasses the environment variable — and a non-blank resolved
string is returned untrimmed. -/
theorem c4_amended :
    (∀ (src : BaseUrlSources) (s : String), (stripChars s.data).isEmpty = true →
      _resolve_base_url { src with argUrl := some s } = _resolve_base_url { src with argUrl := none } ∧
      _resolve_base_url { src with uiUrl := some s } = _resolve_base_url { src with uiUrl := none } ∧
      _resolve_base_url { src with fetched := some s } = _resolve_base_url { src with fetched := none } ∧
      _resolve_base_url { src with envUrl := some s } = _resolve_base_url { src with envUrl := none } ∧
      _resolve_base_url { src with rawUrl := some s, altUrl := none } =
        _resolve_base_url { src with rawUrl := none, altUrl := none }) ∧
    (∀ (src : BaseUrlSources) (s : String), (stripChars s.data).isEmpty = false →
      _resolve_base_url { src with argUrl := some s } =
        String.mk (rstripSlash (stripChars s.data))) ∧
    (∀ (s : String) (e : Option String), (stripChars s.data).isEmpty = true →
      _env_or_setting (some s) e = none) ∧
    (∀ (s : String) (e : Option String), (stripChars s.data).isEmpty = false →
      _env_or_setting (some s) e = some s) := by
  refine ⟨?_, ?_, ?_, ?_⟩
  · intro src s h
    have h' : stripChars s.data = [] := by
      simpa using h
    refine ⟨?_, ?_, ?_, ?_, ?_⟩
    · simp [_resolve_base_url, acceptUrl, h']
    · simp [_resolve_base_url, acceptUrl, h']
    · simp [_resolve_base_url, acceptUrl, h']
    · simp [_resolve_base_url, acceptUrl, h']
    · by_cases he : s.isEmpty
      · simp [_resolve_base_url, acceptUrl, h', he]
      · simp [_resolve_base_url, acceptUrl, h', he]
  · intro src s h
    simp [_resolve_base_url, acceptUrl, h]
  · intro s e h
    simp [_env_or_setting, h]
  · intro s e h
    simp [_env_or_setting, h]

/-- C4, witness for the amended statement at concrete inputs: a blank
`" "` behaves as absent for the base URL's explicit-argument source, and
the scalar resolver returns the default on a blank setting and the
untrimmed string on a non-blank one. -/
theorem c4_amended_witness :
    (_resolve_base_url ⟨some " ", none, none, none, none, some "http://e/"⟩ =
      _resolve_base_url ⟨none, none, none, none, none, some "http://e/"⟩) ∧
    (_resolve_base_url ⟨some "  http://h/  ", none, none, none, none, none⟩ =
      String.mk (rstripSlash (stripChars "  http://h/  ".data))) ∧
    _env_or_setting (some " ") (some "m") = none ∧
    _env_or_setting (some " gpt ") none = some " gpt " :=
  ⟨(c4_amended.1 ⟨none, none, none, none, none, some "http://e/"⟩ " " (by decide)).1,
   c4_amended.2.1 ⟨none, none, none, none, none, none⟩ "  http://h/  " (by decide),
   c4_amended.2.2.1 " " (some "m") (by decide),
   c4_amended.2.2.2 " gpt " none (by decide)⟩

/-- C10: in `_write_result`, a `None` or whitespace-only request id gives
a record whose `request_id` field is null and the filename
`<imageId>.json` with no underscore suffix; otherwise the record stores
the sanitized stripped request id — the same value used in the filename
`<imageId>_<sanitized>.json` — not the caller's original string. -/
theorem c10_write_result :
    ∀ (iid : Int) (tags : List String) (err : Option String) (rid : Option String),
    ((_write_result iid tags err rid).1.request_id = safeRequestIdOf rid ∧
      (_write_result iid tags err rid).1.image_id = iid ∧
      (_write_result iid tags err rid).1.tags = tags ∧
      (_write_result iid tags err rid).1.error = err) ∧
    (rid = none →
      (_write_result iid tags err rid).1.request_id = none ∧
      (_write_result iid tags err rid).2 = toString iid ++ ".json") ∧
    (∀ r, rid = some r → (stripChars r.data).isEmpty = true →
      (_write_result iid tags err rid).1.request_id = none ∧
      (_write_result iid tags err rid).2 = toString iid ++ ".json") ∧
    (∀ r, rid = some r → (stripChars r.data).isEmpty = false →
      (_write_result iid tags err rid).1.request_id =
        some (sanitizeRequestId (String.mk (stripChars r.data))) ∧
      (_write_result iid tags err rid).2 =
        toString iid ++ "_" ++ sanitizeRequestId (String.mk (stripChars r.data)) ++ ".json") := by
  intro iid tags err rid
  refine ⟨⟨rfl, rfl, rfl, rfl⟩, ?_, ?_, ?_⟩
  · rintro rfl
    exact ⟨rfl, by simp [_write_result, safeRequestIdOf]⟩
  · rintro r rfl h
    simp [_write_result, safeRequestIdOf, h]
  · rintro r rfl h
    have hne : (stripChars r.data).map (fun c => if isSafeChar c then c else '_') ≠ [] := by
      intro hmap
      rw [List.map_eq_nil_iff] at hmap
      rw [hmap] at h
      exact absurd h (by decide)
    constructor
    · simp [_write_result, safeRequestIdOf, h]
    · simp only [_write_result, safeRequestIdOf, h, if_neg, Bool.false_eq_true,
        not_false_iff, ite_false, sanitizeRequestId]
      rw [if_neg (by simpa [List.isEmpty_iff] using hne)]
      simp [String.append_assoc]

/-- When reading the image or calling the LLM raises, the catch-all of
`tags_from_image` turns the exception into an empty tag list. -/
theorem tags_from_image_nil_of_err (env : TaskEnv)
    (h : env.readImage.isOk = false ∨ env.llmReply.isOk = false) :
    tags_from_image env = [] := by
  unfold tags_from_image
  rcases h with h | h
  · cases hr : env.readImage with
    | error e => rfl
    | ok v =>
      rw [hr] at h
      simp [Except.isOk, Except.toBool] at h
  · cases hr : env.readImage with
    | error e => rfl
    | ok v =>
      cases hl : env.llmReply with
      | error e => rfl
      | ok c =>
        rw [hl] at h
        simp [Except.isOk, Except.toBool] at h

/-- C1, counterexample: with an image path found and the image fetch
raising, the persisted record has an empty tag list but a NULL error
field — the exception was absorbed inside `tags_from_image`, so
`tag_image_task` writes `error=None`, not an error-populated record. -/
theorem c1_counterexample :
    tag_image_taskE ⟨some "7", none, some "/a.jpg", .ok [], .error "connection refused",
        .ok "irrelevant", false⟩ =
      .ok (some (⟨7, [], none, none⟩, "7.json")) ∧
    (⟨7, [], none, none⟩ : ResultRecord).error = none := by
  refine ⟨by decide, rfl⟩

/-- C1, amended: `tag_image_task` never propagates an exception to its
caller (the embedded orchestrator always returns `.ok`); and when an
exception occurs during image fetch or the LLM call after an image path
was found, it is caught inside `tags_from_image`, so the persisted record
has an empty tag list and a NULL error field — the error field is
populated only when no image path is found or when an exception reaches
`tag_image_task`'s own handler. -/
theorem c1_amended :
    (∀ env : TaskEnv, (tag_image_taskE env).isOk = true) ∧
    (∀ (env : TaskEnv) (raw p : String) (iid : Int),
      env.imageId = some raw → pyParseInt raw = some iid → env.fetchPath = some p →
      p.data.isEmpty = false → env.writeFails = false →
      (env.readImage.isOk = false ∨ env.llmReply.isOk = false) →
      tag_image_taskE env = .ok (some (_write_result iid [] none env.requestId)) ∧
      (_write_result iid [] none env.requestId).1.tags = [] ∧
      (_write_result iid [] none env.requestId).1.error = none) := by
  constructor
  · intro env
    unfold tag_image_taskE
    cases taskAttempt env with
    | ok r => rfl
    | error e =>
      cases hi : env.imageId with
      | none => rfl
      | some raw =>
        cases hp : pyParseInt raw with
        | none => simp [hp, Except.isOk, Except.toBool]
        | some iid =>
          cases hw : env.writeFails <;>
            simp [hp, hw, _write_resultE, Except.isOk, Except.toBool]
  · intro env raw p iid hraw hparse hpath hpne hw herr
    have htags : tag_image env = some [] := by
      unfold tag_image
      rw [hpath]
      simp only [hpne, Bool.false_eq_true, if_false]
      rw [tags_from_image_nil_of_err env herr]
    have hatt : taskAttempt env = .ok (some (_write_result iid [] none env.requestId)) := by
      simp only [taskAttempt, hraw, hparse, htags, _write_resultE, hw]
      rfl
    refine ⟨?_, rfl, rfl⟩
    unfold tag_image_taskE
    rw [hatt]

/-- C1, witness: the amended statement applied to the concrete
environment where the image fetch raises `"connection refused"`. -/
theorem c1_amended_witness :
    (tag_image_taskE ⟨some "7", none, some "/a.jpg", .ok [], .error "connection refused",
        .ok "irrelevant", false⟩).isOk = true ∧
    tag_image_taskE ⟨some "7", none, some "/a.jpg", .ok [], .error "connection refused",
        .ok "irrelevant", false⟩ = .ok (some (_write_result 7 [] none none)) :=
  ⟨c1_amended.1 _,
   (c1_amended.2 ⟨some "7", none, some "/a.jpg", .ok [], .error "connection refused",
      .ok "irrelevant", false⟩ "7" "/a.jpg" 7 rfl (by decide) rfl (by decide) rfl
      (Or.inl (by decide))).1⟩

/-- C5, counterexample: an invocation whose `llmTemp` setting is the
malformed numeric string `"abc"` makes the module-level
`TEMP = float(...)` conversion raise outside every `try` — the process
aborts with the uncaught exception (non-zero status) and the literal
`null` is never printed. -/
theorem c5_counterexample :
    (mainScript ⟨⟨none, none, none, none, none, none⟩, none, none, some "abc", none, none, none,
      none, none, true, ⟨some "7", none, some "/a.jpg", .ok [], .ok "img", .ok "[\"cat\"]",
        false⟩⟩).isOk = false := by
  decide

/-- C5, amended: when the resolved numeric configuration values all parse,
the process emits the literal `null` as the only and final line on its
standard output and terminates normally, whatever the task outcome; but a
malformed numeric configuration value raises before the entry point, so
the process terminates abnormally without printing `null` — the exit
contract does NOT hold regardless of outcome. -/
theorem c5_amended :
    (∀ env : ScriptEnv, scalarsParse env = true →
      mainScript env = .ok (mainEvent env, ["null"])) ∧
    (∀ env : ScriptEnv, scalarsParse env = false → (mainScript env).isOk = false) := by
  constructor
  · intro env h
    unfold mainScript
    rw [h]
    rfl
  · intro env h
    unfold mainScript
    rw [h]
    rfl

/-- C5, witness: the amended statement evaluated on a concrete invocation
with well-formed numeric settings (the dispatched task writes its record
and `null` is printed) and on the malformed `"abc"` invocation. -/
theorem c5_amended_witness :
    mainScript ⟨⟨none, none, none, none, none, none⟩, none, none, some "0.7", none,
      some "-1", none, none, none, true, ⟨some "7", none, none, .ok [], .ok "img", .ok "[\"cat\"]",
        false⟩⟩ =
      .ok (mainEvent ⟨⟨none, none, none, none, none, none⟩, none, none, some "0.7", none,
        some "-1", none, none, none, true, ⟨some "7", none, none, .ok [], .ok "img",
          .ok "[\"cat\"]", false⟩⟩, ["null"]) ∧
    (mainScript ⟨⟨none, none, none, none, none, none⟩, none, none, some "abc", none, none, none,
      none, none, true, ⟨some "7", none, some "/a.jpg", .ok [], .ok "img", .ok "[\"cat\"]",
        false⟩⟩).isOk = false :=
  ⟨c5_amended.1 _ (by decide), c5_amended.2 _ (by decide)⟩

/-- C10, witness: the round-trip example at `(5, ["a","b"], none, "r-1")`
and the blank-id case at `(3, [], none, " ")`. -/
theorem c10_write_result_witness :
    ((_write_result 5 ["a", "b"] none (some "r-1")).1.request_id =
      some (sanitizeRequestId (String.mk (stripChars "r-1".data))) ∧
     (_write_result 5 ["a", "b"] none (some "r-1")).2 =
      toString (5 : Int) ++ "_" ++ sanitizeRequestId (String.mk (stripChars "r-1".data)) ++ ".json") ∧
    ((_write_result 3 [] none (some " ")).1.request_id = none ∧
     (_write_result 3 [] none (some " ")).2 = toString (3 : Int) ++ ".json") :=
  ⟨(c10_write_result 5 ["a", "b"] none (some "r-1")).2.2.2 "r-1" rfl (by decide),
   (c10_write_result 3 [] none (some " ")).2.2.1 " " rfl (by decide)⟩

end LlmImageTag
